import Mathlib

/-!
# Verification of the credit-builder audit and dispute engine

Shallow embedding of `src/services/creditProfileService.ts` and
`src/services/lobMailService.ts`.

Modelling conventions:
* JavaScript numbers are modelled as exact rationals (`ℚ`); every numeric
  constant appearing in the engine (thresholds, gains, probabilities) is a
  short decimal that is exact in both binary doubles and `ℚ` for the
  computations performed here.
* Optional (`field?:`) values are `Option`; a JS truthiness test on an
  optional string (`if (s)`) is `jsTruthyStr`, and `x || 0` on an optional
  number is `Option.getD · 0` (extensionally equal on numbers: `0 || 0 = 0`).
* Dates (ISO strings in the source) are modelled as integer milliseconds
  since the epoch, the value `Date.getTime` works with.
* `Array.prototype.sort` (stable since ES2019) with comparator
  `(a, b) => key a - key b` is modelled as `List.insertionSort` over the
  corresponding total preorder, which Mathlib proves stable.
* Free-text `description` strings built by template interpolation are
  omitted from record types: no claim mentions them and they influence
  nothing else.
-/

/-- JS truthiness of an optional string: `undefined`, `null` and `""` are
falsy, every other string truthy. -/
def jsTruthyStr : Option String → Bool
  | none => false
  | some s => s ≠ ""

/-- JS `a || b` on an optional string: yields the stored string when truthy,
otherwise the default. -/
def jsOrStr (o : Option String) (d : String) : String :=
  if jsTruthyStr o then o.getD d else d

/-- JS `Math.round`: round half towards positive infinity. -/
def jsRound (q : ℚ) : ℤ := ⌊q + 1/2⌋

/-- `Math.round(x * 10) / 10`: round to one decimal place. -/
def jsRound1 (q : ℚ) : ℚ := (jsRound (q * 10) : ℚ) / 10

-- -- Data model (src/types.ts) ----------------------------------------------

/-- One adverse record on a profile (`NegativeItem` in `types.ts`).
The TS `type` union is modelled as a plain string because the engine
dispatches on it with a `default` branch. -/
structure NegativeItem where
  type : String
  creditor_name : String
  account_number_last4 : Option String := none
  amount : Option ℚ := none
  date_reported : Option String := none
  date_of_delinquency : Option String := none
  status : Option String := none
  bureau : Option String := none
  disputable : Option Bool := none
  dispute_reason : Option String := none
deriving DecidableEq

/-- A user's credit profile (`CreditProfile` in `types.ts`).  Identity
fields other than the mailing block, the embedded `BusinessProfile`, and the
financial/goal fields are omitted: the audit engine never reads them. -/
structure CreditProfile where
  name : String := ""
  address_line1 : String := ""
  city : String := ""
  state : String := ""
  zip : String := ""
  current_score : Option ℚ := none
  total_accounts : Option ℚ := none
  average_account_age_months : Option ℚ := none
  total_credit_limit : Option ℚ := none
  total_balance : Option ℚ := none
  utilization_percent : Option ℚ := none
  on_time_payment_percent : Option ℚ := none
  negative_items : Option (List NegativeItem) := none
  hard_inquiries_last_12mo : Option ℚ := none
  account_types : Option (List String) := none
deriving DecidableEq

/-- A strength or weakness entry of an audit (`description` omitted). -/
structure AuditItem where
  factor : String
  impact : String
  score_weight_percent : ℚ
deriving DecidableEq

/-- A ranked dispute opportunity (`DisputeCandidate` in `types.ts`). -/
structure DisputeCandidate where
  item : NegativeItem
  recommended_letter_type : String
  estimated_score_gain : ℚ
  success_probability : ℚ
  priority_score : ℚ
  escalation_path : List String
deriving DecidableEq

/-- A recommended action (`description` omitted). -/
structure RecommendedAction where
  action : String
  estimated_score_impact : ℚ
  cost : ℚ
  timeline_days : ℚ
  priority : ℚ
  phase : String
deriving DecidableEq

/-- One sent dispute letter (`DisputeRecord` in `types.ts`); the three date
fields are epoch milliseconds. -/
structure DisputeRecord where
  id : String
  letter_type : String
  letter_name : String
  target : String
  recipient_name : String
  items_disputed : List NegativeItem
  sent_date : ℤ
  response_deadline : ℤ
  escalation_date : ℤ
  status : String
  lob_letter_id : Option String := none
  tracking_number : Option String := none
  cost : Option ℚ := none
  outcome : Option String := none
  notes : Option String := none
deriving DecidableEq

/-- The audit value assembled by `runAudit`. -/
structure CreditAudit where
  profile : CreditProfile
  score_phase : String
  strengths : List AuditItem
  weaknesses : List AuditItem
  disputable_items : List DisputeCandidate
  missing_account_types : List String
  utilization_status : String
  payment_history_status : String
  recommended_actions : List RecommendedAction
deriving DecidableEq

-- -- Audit engine (creditProfileService.ts, runAudit) -----------------------

/-- `score >= 740 ? 'elite' : score >= 670 ? 'optimization' : score >= 580 ?
'acceleration' : 'foundation'` (line 63). -/
def scorePhase (score : ℚ) : String :=
  if score ≥ 740 then "elite"
  else if score ≥ 670 then "optimization"
  else if score ≥ 580 then "acceleration"
  else "foundation"

/-- Payment-history strength entries (lines 69–71). -/
def paymentStrengths (onTime : Option ℚ) : List AuditItem :=
  match onTime with
  | none => []
  | some o =>
    if o ≥ 99 then
      [{ factor := "payment_history", impact := "high", score_weight_percent := 35 }]
    else []

/-- Payment-history weakness entries (lines 72–74). -/
def paymentWeaknesses (onTime : Option ℚ) : List AuditItem :=
  match onTime with
  | none => []
  | some o =>
    if o ≥ 99 then []
    else if o < 95 then
      [{ factor := "payment_history", impact := "high", score_weight_percent := 35 }]
    else []

/-- Effective utilization (line 78): the stored percentage when present,
else `balance / limit * 100` when the limit is truthy (present and
nonzero), else undefined. -/
def effectiveUtilization (p : CreditProfile) : Option ℚ :=
  match p.utilization_percent with
  | some u => some u
  | none =>
    match p.total_credit_limit with
    | some limit => if limit ≠ 0 then some ((p.total_balance.getD 0) / limit * 100) else none
    | none => none

/-- Utilization status (lines 79–85); the local starts as `'excellent'` and
is only reassigned when the utilization is defined. -/
def utilizationStatusOf (u : Option ℚ) : String :=
  match u with
  | none => "excellent"
  | some v =>
    if v ≤ 9 then "excellent"
    else if v ≤ 30 then "good"
    else if v ≤ 50 then "fair"
    else "critical"

/-- Utilization strength entries (line 81). -/
def utilizationStrengths (u : Option ℚ) : List AuditItem :=
  match u with
  | none => []
  | some v =>
    if v ≤ 9 then
      [{ factor := "utilization", impact := "high", score_weight_percent := 30 }]
    else []

/-- Utilization weakness entries (lines 83–84): one entry in the fair range
and one in the critical range. -/
def utilizationWeaknesses (u : Option ℚ) : List AuditItem :=
  match u with
  | none => []
  | some v =>
    if v ≤ 30 then []
    else
      [{ factor := "utilization", impact := "high", score_weight_percent := 30 }]

/-- Account-age strength entries (lines 88–90). -/
def ageStrengths (age : Option ℚ) : List AuditItem :=
  match age with
  | none => []
  | some a =>
    if a ≥ 84 then
      [{ factor := "age", impact := "medium", score_weight_percent := 15 }]
    else []

/-- Account-age weakness entries (lines 91–93). -/
def ageWeaknesses (age : Option ℚ) : List AuditItem :=
  match age with
  | none => []
  | some a =>
    if a ≥ 84 then []
    else if a < 24 then
      [{ factor := "age", impact := "medium", score_weight_percent := 15 }]
    else []

/-- The tag set that counts as an installment-style account (line 99). -/
def installmentTags : List String :=
  ["installment", "auto", "student", "personal", "mortgage"]

/-- Missing account-type categories (lines 97–102). -/
def missingAccountTypes (types : List String) : List String :=
  (if types.contains "revolving" then [] else ["revolving"]) ++
    (if types.any (fun t => installmentTags.contains t) then [] else ["installment"])

/-- Credit-mix weakness entries (lines 103–105): triggered by the raw
length of the `account_types` list. -/
def mixWeaknesses (types : List String) : List AuditItem :=
  if types.length < 3 then
    [{ factor := "mix", impact := "low", score_weight_percent := 10 }]
  else []

/-- Hard-inquiry weakness entries (lines 108–110). -/
def inquiryWeaknesses (inquiries : Option ℚ) : List AuditItem :=
  match inquiries with
  | none => []
  | some n =>
    if n > 3 then
      [{ factor := "inquiries", impact := "low", score_weight_percent := 10 }]
    else []

/-- Payment-history status (line 129), with the absent percentage coerced
to 0 by `|| 0`. -/
def paymentHistoryStatusOf (onTime : Option ℚ) : String :=
  let o := onTime.getD 0
  if o ≥ 99 then "perfect"
  else if o ≥ 95 then "good"
  else if o ≥ 85 then "needs_work"
  else "poor"

-- -- Dispute candidate ranker (assessDisputeCandidate, lines 224–264) -------

/-- The fixed six-step escalation path (line 228). -/
def escalationPath : List String :=
  ["Basic Bureau Dispute", "609 Verification", "611 Reinvestigation",
   "CFPB Complaint", "Intent to Sue", "FCRA Attorney"]

/-- `assessDisputeCandidate` (lines 224–264): the per-type dispatch table.
`item.dispute_reason ?` is a JS truthiness test, so a present-but-empty
reason takes the reasonless branch. -/
def assessDisputeCandidate (item : NegativeItem) : DisputeCandidate :=
  let table : ℚ × ℚ × String :=
    if item.type = "late_payment" then
      (30, if jsTruthyStr item.dispute_reason then 0.65 else 0.35,
        if jsTruthyStr item.dispute_reason then "basic_bureau" else "goodwill")
    else if item.type = "collection" then (45, 0.55, "debt_validation")
    else if item.type = "chargeoff" then (40, 0.40, "chargeoff_removal")
    else if item.type = "inquiry" then (8, 0.70, "unauthorized_inquiry")
    else (20, 0.50, "basic_bureau")
  { item := item
    recommended_letter_type := table.2.2
    estimated_score_gain := table.1
    success_probability := table.2.1
    priority_score := jsRound1 (table.1 * table.2.1)
    escalation_path := escalationPath }

/-- The total preorder realised by the JS comparator
`(a, b) => b.priority_score - a.priority_score`: descending by priority. -/
def candGE (a b : DisputeCandidate) : Prop :=
  b.priority_score ≤ a.priority_score

instance : DecidableRel candGE := fun a b =>
  inferInstanceAs (Decidable (b.priority_score ≤ a.priority_score))

instance : IsTotal DisputeCandidate candGE :=
  ⟨fun a b => (le_total b.priority_score a.priority_score).elim Or.inl Or.inr⟩

instance : IsTrans DisputeCandidate candGE :=
  ⟨fun _ _ _ h h' => le_trans h' h⟩

/-- The ranked dispute list of `runAudit` (lines 113–116): filter to
`disputable !== false`, assess, stable-sort descending by priority score. -/
def disputableItems (p : CreditProfile) : List DisputeCandidate :=
  List.insertionSort candGE
    (((p.negative_items.getD []).filter
        (fun item => decide (item.disputable ≠ some false))).map assessDisputeCandidate)

-- -- Recommendation generator (generateRecommendations, lines 266–365) ------

/-- "Reduce utilization" (lines 274–284). -/
def reduceUtilizationAction (utilStatus : String) : RecommendedAction :=
  { action := "Reduce utilization"
    estimated_score_impact := if utilStatus = "critical" then 50 else 25
    cost := 0, timeline_days := 30, priority := 1, phase := "acceleration" }

/-- "Dispute negative items" (lines 286–296). -/
def disputeNegativesAction : RecommendedAction :=
  { action := "Dispute negative items"
    estimated_score_impact := 30, cost := 9, timeline_days := 30
    priority := 2, phase := "acceleration" }

/-- "Open secured credit card" (lines 300–308). -/
def securedCardAction : RecommendedAction :=
  { action := "Open secured credit card"
    estimated_score_impact := 20, cost := 200, timeline_days := 7
    priority := 3, phase := "foundation" }

/-- "Open credit builder loan" (lines 309–317). -/
def builderLoanAction : RecommendedAction :=
  { action := "Open credit builder loan"
    estimated_score_impact := 15, cost := 25, timeline_days := 7
    priority := 4, phase := "foundation" }

/-- "Become authorized user" (lines 318–326). -/
def authorizedUserAction : RecommendedAction :=
  { action := "Become authorized user"
    estimated_score_impact := 40, cost := 0, timeline_days := 30
    priority := 2, phase := "foundation" }

/-- "Diversify credit mix" (lines 330–340). -/
def diversifyMixAction : RecommendedAction :=
  { action := "Diversify credit mix"
    estimated_score_impact := 10, cost := 0, timeline_days := 30
    priority := 5, phase := "optimization" }

/-- "Request credit limit increases" (lines 342–352). -/
def limitIncreaseAction : RecommendedAction :=
  { action := "Request credit limit increases"
    estimated_score_impact := 15, cost := 0, timeline_days := 1
    priority := 3, phase := "optimization" }

/-- "Enable Experian Boost" (lines 354–362). -/
def experianBoostAction : RecommendedAction :=
  { action := "Enable Experian Boost"
    estimated_score_impact := 10, cost := 0, timeline_days := 1
    priority := 4, phase := "acceleration" }

/-- The `actions` array in generation (push) order, before sorting
(lines 272–362). -/
def recommendationsBase (p : CreditProfile) (phase utilStatus : String)
    (missingTypes : List String) : List RecommendedAction :=
  (if utilStatus = "critical" ∨ utilStatus = "fair"
    then [reduceUtilizationAction utilStatus] else []) ++
  (if 0 < (p.negative_items.getD []).length then [disputeNegativesAction] else []) ++
  (if phase = "foundation" then
    (if p.total_accounts.getD 0 < 3 then
      [securedCardAction, builderLoanAction, authorizedUserAction] else [])
   else []) ++
  (if 0 < missingTypes.length then [diversifyMixAction] else []) ++
  (if phase ≠ "foundation" then [limitIncreaseAction] else []) ++
  [experianBoostAction]

/-- The total preorder realised by the JS comparator
`(a, b) => a.priority - b.priority`: ascending by priority. -/
def recLE (a b : RecommendedAction) : Prop := a.priority ≤ b.priority

instance : DecidableRel recLE := fun a b =>
  inferInstanceAs (Decidable (a.priority ≤ b.priority))

instance : IsTotal RecommendedAction recLE :=
  ⟨fun a b => le_total a.priority b.priority⟩

instance : IsTrans RecommendedAction recLE :=
  ⟨fun _ _ _ h h' => le_trans h h'⟩

/-- `generateRecommendations` (lines 266–365): generate, then stable-sort
ascending by priority. -/
def generateRecommendations (p : CreditProfile) (phase utilStatus : String)
    (missingTypes : List String) : List RecommendedAction :=
  List.insertionSort recLE (recommendationsBase p phase utilStatus missingTypes)

-- -- runAudit assembly (lines 58–134) ---------------------------------------

/-- `runAudit` as a pure function of the profile (lines 58–134); the
caller-level absent-profile branch (line 60) is outside the engine. -/
def runAudit (p : CreditProfile) : CreditAudit :=
  let score := p.current_score.getD 0
  let phase := scorePhase score
  let util := effectiveUtilization p
  let utilStatus := utilizationStatusOf util
  let types := p.account_types.getD []
  let missingTypes := missingAccountTypes types
  { profile := p
    score_phase := phase
    strengths :=
      paymentStrengths p.on_time_payment_percent ++ utilizationStrengths util ++
        ageStrengths p.average_account_age_months
    weaknesses :=
      paymentWeaknesses p.on_time_payment_percent ++ utilizationWeaknesses util ++
        ageWeaknesses p.average_account_age_months ++ mixWeaknesses types ++
        inquiryWeaknesses p.hard_inquiries_last_12mo
    disputable_items := disputableItems p
    missing_account_types := missingTypes
    utilization_status := utilStatus
    payment_history_status := paymentHistoryStatusOf p.on_time_payment_percent
    recommended_actions := generateRecommendations p phase utilStatus missingTypes }

-- -- Dispute tracking (lines 138–181, 202–222) -------------------------------

/-- The `content` blob of a stored dispute memory.  `letter_type` and
`target` are the fields `memoryToDispute` guards on; the remaining fields
are cast without checks in the source and are modelled at the types the
writer (`addDispute`) stores. -/
structure MemoryContent where
  id : Option String := none
  letter_type : Option String := none
  letter_name : String := ""
  target : Option String := none
  recipient_name : String := ""
  items_disputed : List NegativeItem := []
  sent_date : ℤ := 0
  response_deadline : ℤ := 0
  escalation_date : ℤ := 0
  status : String := ""
  lob_letter_id : Option String := none
  tracking_number : Option String := none
  cost : Option ℚ := none
  outcome : Option String := none
  notes : Option String := none
deriving DecidableEq

/-- A stored memory row: its own id plus the dispute content. -/
structure DisputeMemory where
  id : Option String := none
  content : MemoryContent
deriving DecidableEq

/-- The record rebuilt from a valid memory (`memoryToDispute`, lines
205–221); `id` is `c['id'] || memory.id || ''` with JS `||`. -/
def disputeOfContent (m : DisputeMemory) : DisputeRecord :=
  { id := jsOrStr m.content.id (jsOrStr m.id "")
    letter_type := m.content.letter_type.getD ""
    letter_name := m.content.letter_name
    target := m.content.target.getD ""
    recipient_name := m.content.recipient_name
    items_disputed := m.content.items_disputed
    sent_date := m.content.sent_date
    response_deadline := m.content.response_deadline
    escalation_date := m.content.escalation_date
    status := m.content.status
    lob_letter_id := m.content.lob_letter_id
    tracking_number := m.content.tracking_number
    cost := m.content.cost
    outcome := m.content.outcome
    notes := m.content.notes }

/-- `memoryToDispute` (lines 202–222): `null` when `!c['letter_type'] ||
!c['target']` — a JS truthiness guard, so empty strings also fail it. -/
def memoryToDispute (m : DisputeMemory) : Option DisputeRecord :=
  if jsTruthyStr m.content.letter_type && jsTruthyStr m.content.target then
    some (disputeOfContent m)
  else none

/-- `getDisputes` (lines 157–163) over the stored rows the memory store
returns for the user: rebuild each and drop the `null`s. -/
def getDisputes (memories : List DisputeMemory) : List DisputeRecord :=
  memories.filterMap memoryToDispute

/-- `getPendingDisputes` (lines 165–172) over the record list `getDisputes`
returned, with the query-time clock in epoch milliseconds. -/
def getPendingDisputes (now : ℤ) (all : List DisputeRecord) : List DisputeRecord :=
  all.filter (fun d =>
    (["sent", "delivered"].contains d.status) && decide (now < d.response_deadline))

/-- `getOverdueDisputes` (lines 174–181). -/
def getOverdueDisputes (now : ℤ) (all : List DisputeRecord) : List DisputeRecord :=
  all.filter (fun d =>
    (["sent", "delivered"].contains d.status) && decide (d.response_deadline ≤ now))

-- -- Creditor-name normalization (line 185–187) ------------------------------

/-- The character class the regex `[^a-z0-9]` complements, applied after
lowercasing. -/
def isAlnum (c : Char) : Bool :=
  ('a' ≤ c && c ≤ 'z') || ('0' ≤ c && c ≤ '9')

/-- `replace(/[^a-z0-9]+/g, '-')`: each maximal run of non-alphanumerics
becomes a single dash; alphanumeric runs are kept. -/
def collapseRuns : List Char → List Char
  | [] => []
  | c :: rest =>
    if isAlnum c then
      (c :: rest.takeWhile isAlnum) ++ collapseRuns (rest.dropWhile isAlnum)
    else
      '-' :: collapseRuns (rest.dropWhile (fun x => !isAlnum x))
termination_by l => l.length
decreasing_by
  · exact Nat.lt_succ_of_le ((List.dropWhile_sublist _).length_le)
  · exact Nat.lt_succ_of_le ((List.dropWhile_sublist _).length_le)

/-- Removes a single leading dash, the `^-` alternative of
`replace(/^-|-$/g, '')`. -/
def stripLeadDash : List Char → List Char
  | [] => []
  | c :: t => if c = '-' then t else c :: t

/-- Removes a single trailing dash, the `-$` alternative.  The regex pass
removes at most one leading and one trailing dash in a single scan, so its
effect is this composition in either order. -/
def stripTrailDash (l : List Char) : List Char :=
  (stripLeadDash l.reverse).reverse

/-- `normalizeCreditorName` (lines 185–187): lowercase, collapse
non-alphanumeric runs to single dashes, strip a leading/trailing dash. -/
def normalizeCreditorName (name : String) : String :=
  ⟨stripLeadDash (stripTrailDash (collapseRuns (name.data.map Char.toLower)))⟩

/-- The maximal alphanumeric runs of a character list, in order: the token
sequence the spec's normalization invariant speaks about. -/
def alnumTokens : List Char → List (List Char)
  | [] => []
  | c :: rest =>
    if isAlnum c then
      (c :: rest.takeWhile isAlnum) :: alnumTokens (rest.dropWhile isAlnum)
    else
      alnumTokens (rest.dropWhile (fun x => !isAlnum x))
termination_by l => l.length
decreasing_by
  · exact Nat.lt_succ_of_le ((List.dropWhile_sublist _).length_le)
  · exact Nat.lt_succ_of_le ((List.dropWhile_sublist _).length_le)

/-- The alphanumeric token sequence a string reduces to under the
normalization rule (lowercase first, then split). -/
def nameTokens (s : String) : List (List Char) :=
  alnumTokens (s.data.map Char.toLower)

/-- Tokens joined by single dashes. -/
def joinDash : List (List Char) → List Char
  | [] => []
  | [t] => t
  | t :: ts => t ++ '-' :: joinDash ts

-- -- Mail dispatch gateway (lobMailService.ts, sendDispute) ------------------

/-- Milliseconds in one day. -/
def msPerDay : ℤ := 24 * 60 * 60 * 1000

/-- The `DisputeRecord` literal `sendDispute` builds after a successful
dispatch (lobMailService.ts lines 117–132 and the creditor variant at lines
329–344): deadlines are offsets from the dispatch-time clock `now`. -/
def sendDisputeRecord (nowMs : ℤ) (newId letterType letterName target recipientName : String)
    (disputeItems : List NegativeItem) (lobLetterId trackingNumber : Option String)
    (price : Option ℚ) : DisputeRecord :=
  { id := newId
    letter_type := letterType
    letter_name := letterName
    target := target
    recipient_name := recipientName
    items_disputed := disputeItems
    sent_date := nowMs
    response_deadline := nowMs + 30 * 24 * 60 * 60 * 1000
    escalation_date := nowMs + 35 * 24 * 60 * 60 * 1000
    status := "sent"
    lob_letter_id := lobLetterId
    tracking_number := trackingNumber
    cost := price
    outcome := none
    notes := none }

-- -- Projection lemmas for runAudit ------------------------------------------

lemma runAudit_score_phase (p : CreditProfile) :
    (runAudit p).score_phase = scorePhase (p.current_score.getD 0) := rfl

lemma runAudit_strengths (p : CreditProfile) :
    (runAudit p).strengths =
      paymentStrengths p.on_time_payment_percent ++
        utilizationStrengths (effectiveUtilization p) ++
        ageStrengths p.average_account_age_months := rfl

lemma runAudit_weaknesses (p : CreditProfile) :
    (runAudit p).weaknesses =
      paymentWeaknesses p.on_time_payment_percent ++
        utilizationWeaknesses (effectiveUtilization p) ++
        ageWeaknesses p.average_account_age_months ++
        mixWeaknesses (p.account_types.getD []) ++
        inquiryWeaknesses p.hard_inquiries_last_12mo := rfl

lemma runAudit_disputable_items (p : CreditProfile) :
    (runAudit p).disputable_items = disputableItems p := rfl

lemma runAudit_missing_account_types (p : CreditProfile) :
    (runAudit p).missing_account_types =
      missingAccountTypes (p.account_types.getD []) := rfl

lemma runAudit_utilization_status (p : CreditProfile) :
    (runAudit p).utilization_status =
      utilizationStatusOf (effectiveUtilization p) := rfl

lemma runAudit_payment_history_status (p : CreditProfile) :
    (runAudit p).payment_history_status =
      paymentHistoryStatusOf p.on_time_payment_percent := rfl

lemma runAudit_recommended_actions (p : CreditProfile) :
    (runAudit p).recommended_actions =
      generateRecommendations p (scorePhase (p.current_score.getD 0))
        (utilizationStatusOf (effectiveUtilization p))
        (missingAccountTypes (p.account_types.getD [])) := rfl

-- -- Factor names of the generated audit entries -----------------------------

lemma paymentStrengths_factor {o : Option ℚ} {x : AuditItem}
    (h : x ∈ paymentStrengths o) : x.factor = "payment_history" := by
  cases o <;> simp only [paymentStrengths] at h
  · simp at h
  · split_ifs at h <;> simp_all

lemma paymentWeaknesses_factor {o : Option ℚ} {x : AuditItem}
    (h : x ∈ paymentWeaknesses o) : x.factor = "payment_history" := by
  cases o <;> simp only [paymentWeaknesses] at h
  · simp at h
  · split_ifs at h <;> simp_all

lemma utilizationStrengths_factor {u : Option ℚ} {x : AuditItem}
    (h : x ∈ utilizationStrengths u) : x.factor = "utilization" := by
  cases u <;> simp only [utilizationStrengths] at h
  · simp at h
  · split_ifs at h <;> simp_all

lemma utilizationWeaknesses_factor {u : Option ℚ} {x : AuditItem}
    (h : x ∈ utilizationWeaknesses u) : x.factor = "utilization" := by
  cases u <;> simp only [utilizationWeaknesses] at h
  · simp at h
  · split_ifs at h <;> simp_all

lemma ageStrengths_factor {a : Option ℚ} {x : AuditItem}
    (h : x ∈ ageStrengths a) : x.factor = "age" := by
  cases a <;> simp only [ageStrengths] at h
  · simp at h
  · split_ifs at h <;> simp_all

lemma ageWeaknesses_factor {a : Option ℚ} {x : AuditItem}
    (h : x ∈ ageWeaknesses a) : x.factor = "age" := by
  cases a <;> simp only [ageWeaknesses] at h
  · simp at h
  · split_ifs at h <;> simp_all

lemma mixWeaknesses_factor {t : List String} {x : AuditItem}
    (h : x ∈ mixWeaknesses t) : x.factor = "mix" := by
  simp only [mixWeaknesses] at h
  split_ifs at h <;> simp_all

lemma inquiryWeaknesses_factor {n : Option ℚ} {x : AuditItem}
    (h : x ∈ inquiryWeaknesses n) : x.factor = "inquiries" := by
  cases n <;> simp only [inquiryWeaknesses] at h
  · simp at h
  · split_ifs at h <;> simp_all

-- -- C1: score phase classification ------------------------------------------

/-- C1: `runAudit` classifies `score_phase` as elite iff the score (absent
treated as 0) is ≥ 740, optimization iff in [670, 740), acceleration iff in
[580, 670), foundation otherwise; absent score yields foundation. -/
theorem claim_C1_score_phase (p : CreditProfile) :
    ((runAudit p).score_phase = "elite" ↔ 740 ≤ p.current_score.getD 0) ∧
    ((runAudit p).score_phase = "optimization" ↔
      670 ≤ p.current_score.getD 0 ∧ p.current_score.getD 0 < 740) ∧
    ((runAudit p).score_phase = "acceleration" ↔
      580 ≤ p.current_score.getD 0 ∧ p.current_score.getD 0 < 670) ∧
    ((runAudit p).score_phase = "foundation" ↔ p.current_score.getD 0 < 580) ∧
    (p.current_score = none → (runAudit p).score_phase = "foundation") := by
  rw [runAudit_score_phase]
  set s := p.current_score.getD 0 with hs
  have habs : p.current_score = none → s = 0 := by
    intro h; rw [hs, h]; rfl
  unfold scorePhase
  split_ifs with h1 h2 h3
  · refine ⟨by simp [h1], by simp; intro h; linarith, by simp; intro h; linarith,
      by simp; linarith, fun h => absurd (habs h ▸ h1) (by norm_num)⟩
  · refine ⟨by simpa using h1, by simp [h2, not_le.mp h1], by simp; intro h; linarith,
      by simp; linarith, fun h => absurd (habs h ▸ h2) (by norm_num)⟩
  · refine ⟨by simpa using h1, by simp; intro h; exact absurd h h2,
      by simp [h3, not_le.mp h2], by simp; linarith,
      fun h => absurd (habs h ▸ h3) (by norm_num)⟩
  · refine ⟨by simpa using h1, by simp; intro h; exact absurd h h2,
      by simp; intro h; exact absurd h h3, by simpa using not_le.mp h3, fun _ => rfl⟩

-- -- C10: absent on-time percentage ------------------------------------------

/-- C10: when `on_time_payment_percent` is absent, `runAudit` records no
payment-history strength and no payment-history weakness, while
`payment_history_status` is still "poor" (the absent value is 0 there). -/
theorem claim_C10_absent_payment_percent (p : CreditProfile)
    (h : p.on_time_payment_percent = none) :
    (∀ s ∈ (runAudit p).strengths, s.factor ≠ "payment_history") ∧
    (∀ w ∈ (runAudit p).weaknesses, w.factor ≠ "payment_history") ∧
    (runAudit p).payment_history_status = "poor" := by
  rw [runAudit_strengths, runAudit_weaknesses, runAudit_payment_history_status, h]
  refine ⟨?_, ?_, rfl⟩
  · intro s hsmem
    rcases List.mem_append.mp hsmem with hsm | hsm
    rcases List.mem_append.mp hsm with hsm' | hsm'
    · simp [paymentStrengths] at hsm'
    · rw [utilizationStrengths_factor hsm']; decide
    · rw [ageStrengths_factor hsm]; decide
  · intro w hwmem
    rcases List.mem_append.mp hwmem with hwm | hwm
    rcases List.mem_append.mp hwm with hwm' | hwm'
    rcases List.mem_append.mp hwm' with hwm'' | hwm''
    rcases List.mem_append.mp hwm'' with hwm3 | hwm3
    · simp [paymentWeaknesses] at hwm3
    · rw [utilizationWeaknesses_factor hwm3]; decide
    · rw [ageWeaknesses_factor hwm'']; decide
    · rw [mixWeaknesses_factor hwm']; decide
    · rw [inquiryWeaknesses_factor hwm]; decide

/-- Witness for C10 at a concrete profile with no stored percentage. -/
theorem claim_C10_witness :
    (∀ s ∈ (runAudit { name := "w10" }).strengths, s.factor ≠ "payment_history") ∧
    (∀ w ∈ (runAudit { name := "w10" }).weaknesses, w.factor ≠ "payment_history") ∧
    (runAudit { name := "w10" }).payment_history_status = "poor" :=
  claim_C10_absent_payment_percent { name := "w10" } rfl

-- -- C6: dispatch-time deadline arithmetic -----------------------------------

/-- C6: a dispute dispatched at time `T` carries `sent_date = T`,
`response_deadline = T + 30` days, `escalation_date = T + 35` days, and
status "sent", for any `T`. -/
theorem claim_C6_deadline_arithmetic (nowMs : ℤ)
    (newId letterType letterName target recipientName : String)
    (disputeItems : List NegativeItem) (lobLetterId trackingNumber : Option String)
    (price : Option ℚ) :
    (sendDisputeRecord nowMs newId letterType letterName target recipientName
        disputeItems lobLetterId trackingNumber price).sent_date = nowMs ∧
    (sendDisputeRecord nowMs newId letterType letterName target recipientName
        disputeItems lobLetterId trackingNumber price).response_deadline =
      nowMs + 30 * msPerDay ∧
    (sendDisputeRecord nowMs newId letterType letterName target recipientName
        disputeItems lobLetterId trackingNumber price).escalation_date =
      nowMs + 35 * msPerDay ∧
    (sendDisputeRecord nowMs newId letterType letterName target recipientName
        disputeItems lobLetterId trackingNumber price).status = "sent" := by
  refine ⟨rfl, ?_, ?_, rfl⟩ <;> norm_num [sendDisputeRecord, msPerDay]

-- -- C2: utilization analysis ------------------------------------------------

lemma util_strength_exists_iff (p : CreditProfile) :
    (∃ s ∈ (runAudit p).strengths, s.factor = "utilization") ↔
      utilizationStrengths (effectiveUtilization p) ≠ [] := by
  rw [runAudit_strengths]
  constructor
  · rintro ⟨s, hmem, hfac⟩
    rcases List.mem_append.mp hmem with hm | hm
    · rcases List.mem_append.mp hm with hm' | hm'
      · rw [paymentStrengths_factor hm'] at hfac; exact absurd hfac (by decide)
      · exact List.ne_nil_of_mem hm'
    · rw [ageStrengths_factor hm] at hfac; exact absurd hfac (by decide)
  · intro hne
    obtain ⟨s, hs⟩ := List.exists_mem_of_ne_nil _ hne
    exact ⟨s, List.mem_append.mpr (Or.inl (List.mem_append.mpr (Or.inr hs))),
      utilizationStrengths_factor hs⟩

lemma util_weakness_exists_iff (p : CreditProfile) :
    (∃ w ∈ (runAudit p).weaknesses, w.factor = "utilization") ↔
      utilizationWeaknesses (effectiveUtilization p) ≠ [] := by
  rw [runAudit_weaknesses]
  constructor
  · rintro ⟨w, hmem, hfac⟩
    rcases List.mem_append.mp hmem with hm | hm
    · rcases List.mem_append.mp hm with hm' | hm'
      · rcases List.mem_append.mp hm' with hm'' | hm''
        · rcases List.mem_append.mp hm'' with hm3 | hm3
          · rw [paymentWeaknesses_factor hm3] at hfac; exact absurd hfac (by decide)
          · exact List.ne_nil_of_mem hm3
        · rw [ageWeaknesses_factor hm''] at hfac; exact absurd hfac (by decide)
      · rw [mixWeaknesses_factor hm'] at hfac; exact absurd hfac (by decide)
    · rw [inquiryWeaknesses_factor hm] at hfac; exact absurd hfac (by decide)
  · intro hne
    obtain ⟨w, hw⟩ := List.exists_mem_of_ne_nil _ hne
    refine ⟨w, ?_, utilizationWeaknesses_factor hw⟩
    exact List.mem_append.mpr (Or.inl (List.mem_append.mpr (Or.inl
      (List.mem_append.mpr (Or.inl (List.mem_append.mpr (Or.inr hw)))))))

/-- C2: effective utilization is the stored percentage, else
balance/limit×100 when the limit is present and nonzero, else undefined;
defined utilization is bucketed at 9/30/50 with a strength only in the
excellent bucket and a weakness exactly in the fair and critical buckets;
undefined utilization reports "excellent" with no strength or weakness. -/
theorem claim_C2_utilization (p : CreditProfile) :
    (∀ v, p.utilization_percent = some v → effectiveUtilization p = some v) ∧
    (∀ L B, p.utilization_percent = none → p.total_credit_limit = some L → L ≠ 0 →
      p.total_balance = some B → effectiveUtilization p = some (B / L * 100)) ∧
    (p.utilization_percent = none →
      p.total_credit_limit = none ∨ p.total_credit_limit = some 0 →
      effectiveUtilization p = none) ∧
    (∀ v, effectiveUtilization p = some v →
      (((runAudit p).utilization_status = "excellent" ↔ v ≤ 9) ∧
       ((∃ s ∈ (runAudit p).strengths, s.factor = "utilization") ↔ v ≤ 9) ∧
       ((runAudit p).utilization_status = "good" ↔ 9 < v ∧ v ≤ 30) ∧
       ((runAudit p).utilization_status = "fair" ↔ 30 < v ∧ v ≤ 50) ∧
       ((runAudit p).utilization_status = "critical" ↔ 50 < v) ∧
       ((∃ w ∈ (runAudit p).weaknesses, w.factor = "utilization") ↔ 30 < v))) ∧
    (effectiveUtilization p = none →
      ((runAudit p).utilization_status = "excellent" ∧
       (∀ s ∈ (runAudit p).strengths, s.factor ≠ "utilization") ∧
       (∀ w ∈ (runAudit p).weaknesses, w.factor ≠ "utilization"))) := by
  refine ⟨?_, ?_, ?_, ?_, ?_⟩
  · intro v h; simp [effectiveUtilization, h]
  · intro L B h hL hLne hB; simp [effectiveUtilization, h, hL, hB, hLne]
  · intro h hor
    rcases hor with h0 | h0 <;> simp [effectiveUtilization, h, h0]
  · intro v hv
    rw [runAudit_utilization_status, util_strength_exists_iff, util_weakness_exists_iff, hv]
    have hstr : (utilizationStrengths (some v) ≠ []) ↔ v ≤ 9 := by
      simp only [utilizationStrengths]; split_ifs with h <;> simp [h]
    have hwk : (utilizationWeaknesses (some v) ≠ []) ↔ 30 < v := by
      simp only [utilizationWeaknesses]
      split_ifs with h
      · simp [not_lt.mpr h]
      · simp [not_le.mp h]
    simp only [utilizationStatusOf]
    split_ifs with h1 h2 h3
    · exact ⟨iff_of_true rfl h1, hstr,
        iff_of_false (by decide) (fun hh => by linarith [hh.1]),
        iff_of_false (by decide) (fun hh => by linarith [hh.1]),
        iff_of_false (by decide) (fun hh => by linarith), hwk⟩
    · exact ⟨iff_of_false (by decide) h1, hstr,
        iff_of_true rfl ⟨not_le.mp h1, h2⟩,
        iff_of_false (by decide) (fun hh => by linarith [hh.1]),
        iff_of_false (by decide) (fun hh => by linarith), hwk⟩
    · exact ⟨iff_of_false (by decide) h1, hstr,
        iff_of_false (by decide) (fun hh => h2 hh.2),
        iff_of_true rfl ⟨not_le.mp h2, h3⟩,
        iff_of_false (by decide) (fun hh => by linarith), hwk⟩
    · exact ⟨iff_of_false (by decide) h1, hstr,
        iff_of_false (by decide) (fun hh => h2 hh.2),
        iff_of_false (by decide) (fun hh => h3 hh.2),
        iff_of_true rfl (not_le.mp h3), hwk⟩
  · intro h
    rw [runAudit_utilization_status, runAudit_strengths, runAudit_weaknesses, h]
    refine ⟨rfl, ?_, ?_⟩
    · intro s hmem
      rcases List.mem_append.mp hmem with hm | hm
      · rcases List.mem_append.mp hm with hm' | hm'
        · rw [paymentStrengths_factor hm']; decide
        · simp [utilizationStrengths] at hm'
      · rw [ageStrengths_factor hm]; decide
    · intro w hmem
      rcases List.mem_append.mp hmem with hm | hm
      · rcases List.mem_append.mp hm with hm' | hm'
        · rcases List.mem_append.mp hm' with hm'' | hm''
          · rcases List.mem_append.mp hm'' with hm3 | hm3
            · rw [paymentWeaknesses_factor hm3]; decide
            · simp [utilizationWeaknesses] at hm3
          · rw [ageWeaknesses_factor hm'']; decide
        · rw [mixWeaknesses_factor hm']; decide
      · rw [inquiryWeaknesses_factor hm]; decide

/-- Witness for C2 at a profile with a stored 5% utilization. -/
theorem claim_C2_witness :
    (runAudit { name := "w2", utilization_percent := some 5 }).utilization_status =
      "excellent" :=
  (((claim_C2_utilization { name := "w2", utilization_percent := some 5 }).2.2.2.1
    5 rfl).1).mpr (by norm_num)

-- -- C7: credit mix ----------------------------------------------------------

lemma mix_weakness_exists_iff (p : CreditProfile) :
    (∃ w ∈ (runAudit p).weaknesses, w.factor = "mix") ↔
      mixWeaknesses (p.account_types.getD []) ≠ [] := by
  rw [runAudit_weaknesses]
  constructor
  · rintro ⟨w, hmem, hfac⟩
    rcases List.mem_append.mp hmem with hm | hm
    · rcases List.mem_append.mp hm with hm' | hm'
      · rcases List.mem_append.mp hm' with hm'' | hm''
        · rcases List.mem_append.mp hm'' with hm3 | hm3
          · rw [paymentWeaknesses_factor hm3] at hfac; exact absurd hfac (by decide)
          · rw [utilizationWeaknesses_factor hm3] at hfac; exact absurd hfac (by decide)
        · rw [ageWeaknesses_factor hm''] at hfac; exact absurd hfac (by decide)
      · exact List.ne_nil_of_mem hm'
    · rw [inquiryWeaknesses_factor hm] at hfac; exact absurd hfac (by decide)
  · intro hne
    obtain ⟨w, hw⟩ := List.exists_mem_of_ne_nil _ hne
    refine ⟨w, ?_, mixWeaknesses_factor hw⟩
    exact List.mem_append.mpr (Or.inl (List.mem_append.mpr (Or.inr hw)))

/-- The profile refuting C7: three duplicated account-type tags. -/
def dupTypesProfile : CreditProfile :=
  { name := "c7", account_types := some ["revolving", "revolving", "revolving"] }

/-- The claim C7 as stated is false: the mix weakness is keyed on the raw
length of `account_types`, not on its number of distinct entries.  With
three duplicated "revolving" tags the distinct count is 1 (< 3) yet no mix
weakness is recorded. -/
theorem claim_C7_counterexample :
    ((["revolving", "revolving", "revolving"] : List String).dedup.length < 3) ∧
    (∀ w ∈ (runAudit dupTypesProfile).weaknesses, w.factor ≠ "mix") := by
  constructor
  · decide
  · intro w hmem hfac
    have h1 := (mix_weakness_exists_iff dupTypesProfile).mp ⟨w, hmem, hfac⟩
    exact h1 (by decide)

/-- C7 amended: `missing_account_types` flags revolving and installment
exactly as claimed, and the mix weakness fires iff the raw length of the
`account_types` list (duplicates counted) is below 3. -/
theorem claim_C7_amended_credit_mix (p : CreditProfile) :
    ("revolving" ∈ (runAudit p).missing_account_types ↔
      "revolving" ∉ p.account_types.getD []) ∧
    ("installment" ∈ (runAudit p).missing_account_types ↔
      ¬ ∃ t ∈ p.account_types.getD [], t ∈ installmentTags) ∧
    ((∃ w ∈ (runAudit p).weaknesses, w.factor = "mix") ↔
      (p.account_types.getD []).length < 3) := by
  rw [runAudit_missing_account_types, mix_weakness_exists_iff]
  set types := p.account_types.getD [] with htypes
  refine ⟨?_, ?_, ?_⟩
  · simp only [missingAccountTypes]
    split_ifs with hrev hinst hinst <;>
      simp_all [List.contains, List.elem_iff]
  · simp only [missingAccountTypes]
    split_ifs with hrev hinst hinst <;>
      simp_all [List.contains, List.elem_iff]
  · simp only [mixWeaknesses]
    split_ifs with hlen <;> simp [hlen]

/-- Witness for C7 (amended) at a profile with one account type. -/
theorem claim_C7_witness :
    (∃ w ∈ (runAudit { name := "w7", account_types := some ["revolving"] }).weaknesses,
      w.factor = "mix") :=
  (claim_C7_amended_credit_mix
    { name := "w7", account_types := some ["revolving"] }).2.2.mpr (by decide)

-- -- C5: pending/overdue partition -------------------------------------------

/-- C5: `pending` holds exactly the sent/delivered records whose deadline is
strictly in the future, `overdue` exactly those at or past the deadline; the
views are disjoint and resolved/escalated records appear in neither. -/
theorem claim_C5_pending_overdue (now : ℤ) (all : List DisputeRecord) :
    (∀ d, d ∈ getPendingDisputes now all ↔
      d ∈ all ∧ (d.status = "sent" ∨ d.status = "delivered") ∧
        now < d.response_deadline) ∧
    (∀ d, d ∈ getOverdueDisputes now all ↔
      d ∈ all ∧ (d.status = "sent" ∨ d.status = "delivered") ∧
        d.response_deadline ≤ now) ∧
    (∀ d, ¬ (d ∈ getPendingDisputes now all ∧ d ∈ getOverdueDisputes now all)) ∧
    (∀ d ∈ all, (d.status = "resolved" ∨ d.status = "escalated") →
      d ∉ getPendingDisputes now all ∧ d ∉ getOverdueDisputes now all) := by
  have hp : ∀ d, d ∈ getPendingDisputes now all ↔
      d ∈ all ∧ (d.status = "sent" ∨ d.status = "delivered") ∧
        now < d.response_deadline := by
    intro d
    simp [getPendingDisputes, List.mem_filter, List.contains, List.elem_iff, and_assoc]
  have ho : ∀ d, d ∈ getOverdueDisputes now all ↔
      d ∈ all ∧ (d.status = "sent" ∨ d.status = "delivered") ∧
        d.response_deadline ≤ now := by
    intro d
    simp [getOverdueDisputes, List.mem_filter, List.contains, List.elem_iff, and_assoc]
  refine ⟨hp, ho, ?_, ?_⟩
  · rintro d ⟨h1, h2⟩
    have hlt := ((hp d).mp h1).2.2
    have hle := ((ho d).mp h2).2.2
    linarith
  · intro d _ hstat
    constructor
    · intro hmem
      rcases ((hp d).mp hmem).2.1 with h | h <;> rcases hstat with h' | h' <;>
        rw [h'] at h <;> simp at h
    · intro hmem
      rcases ((ho d).mp hmem).2.1 with h | h <;> rcases hstat with h' | h' <;>
        rw [h'] at h <;> simp at h

/-- A resolved record used to witness C5. -/
def resolvedSample : DisputeRecord :=
  { id := "w5", letter_type := "basic_bureau", letter_name := "FCRA Dispute"
    target := "equifax", recipient_name := "Equifax", items_disputed := []
    sent_date := 0, response_deadline := 5, escalation_date := 9
    status := "resolved" }

/-- Witness for C5: a resolved record with a future deadline is in neither
view at time 0. -/
theorem claim_C5_witness :
    resolvedSample ∉ getPendingDisputes 0 [resolvedSample] ∧
    resolvedSample ∉ getOverdueDisputes 0 [resolvedSample] :=
  (claim_C5_pending_overdue 0 [resolvedSample]).2.2.2 resolvedSample
    (List.mem_singleton.mpr rfl) (Or.inl rfl)

-- -- C9: tolerant reads of the dispute history --------------------------------

lemma getDisputes_eq_filter_map (memories : List DisputeMemory) :
    getDisputes memories =
      (memories.filter (fun m =>
        jsTruthyStr m.content.letter_type && jsTruthyStr m.content.target)).map
        disputeOfContent := by
  induction memories with
  | nil => rfl
  | cons m ms ih =>
    by_cases h : (jsTruthyStr m.content.letter_type && jsTruthyStr m.content.target) = true
    · simp [getDisputes, List.filterMap_cons, memoryToDispute, h, ← ih, getDisputes]
    · simp [getDisputes, List.filterMap_cons, memoryToDispute, h, ← ih, getDisputes]

/-- The claim C9 as stated is false: the guard in `memoryToDispute` is a JS
truthiness test, so a record whose `letter_type` is present but equal to the
empty string is also dropped from the read view. -/
def emptyTypeMemory : DisputeMemory :=
  { id := some "m9", content := { letter_type := some "", target := some "Equifax" } }

theorem claim_C9_counterexample :
    emptyTypeMemory.content.letter_type.isSome = true ∧
    emptyTypeMemory.content.target.isSome = true ∧
    getDisputes [emptyTypeMemory] = [] := by
  refine ⟨rfl, rfl, ?_⟩; rfl

/-- C9 amended: `getDisputes` returns exactly the stored records whose
`letter_type` and `target` are present and non-empty (JS-truthy), rebuilt by
`disputeOfContent`; any other record is silently excluded (the read is total
and never alters the stored list), and every truthy record is returned. -/
theorem claim_C9_tolerant_reads (memories : List DisputeMemory) :
    (getDisputes memories =
      (memories.filter (fun m =>
        jsTruthyStr m.content.letter_type && jsTruthyStr m.content.target)).map
        disputeOfContent) ∧
    (∀ m ∈ memories,
      jsTruthyStr m.content.letter_type = true → jsTruthyStr m.content.target = true →
        disputeOfContent m ∈ getDisputes memories) := by
  refine ⟨getDisputes_eq_filter_map memories, ?_⟩
  intro m hm h1 h2
  rw [getDisputes_eq_filter_map]
  exact List.mem_map_of_mem _ (List.mem_filter.mpr ⟨hm, by simp [h1, h2]⟩)

/-- A well-formed stored memory used to witness C9. -/
def goodMemory : DisputeMemory :=
  { id := some "m9w"
    content := { letter_type := some "basic_bureau", target := some "Equifax" } }

/-- Witness for C9 at a one-element store. -/
theorem claim_C9_witness :
    disputeOfContent goodMemory ∈ getDisputes [goodMemory] :=
  (claim_C9_tolerant_reads [goodMemory]).2 goodMemory (List.mem_singleton.mpr rfl)
    rfl rfl

-- -- C3: dispute candidate ranking -------------------------------------------

/-- The dispatch table as the (amended) claim states it: gains,
probabilities and letter types per negative-item type, with the
late-payment branch keyed on a present-and-non-empty dispute reason,
priority = round(gain × probability, 1 decimal), and the fixed six-step
escalation path. -/
def claimCandidate (i : NegativeItem) : DisputeCandidate :=
  let gain : ℚ :=
    if i.type = "late_payment" then 30
    else if i.type = "collection" then 45
    else if i.type = "chargeoff" then 40
    else if i.type = "inquiry" then 8
    else 20
  let prob : ℚ :=
    if i.type = "late_payment" then (if jsTruthyStr i.dispute_reason then 0.65 else 0.35)
    else if i.type = "collection" then 0.55
    else if i.type = "chargeoff" then 0.40
    else if i.type = "inquiry" then 0.70
    else 0.50
  let letter : String :=
    if i.type = "late_payment" then
      (if jsTruthyStr i.dispute_reason then "basic_bureau" else "goodwill")
    else if i.type = "collection" then "debt_validation"
    else if i.type = "chargeoff" then "chargeoff_removal"
    else if i.type = "inquiry" then "unauthorized_inquiry"
    else "basic_bureau"
  { item := i
    recommended_letter_type := letter
    estimated_score_gain := gain
    success_probability := prob
    priority_score := jsRound1 (gain * prob)
    escalation_path :=
      ["Basic Bureau Dispute", "609 Verification", "611 Reinvestigation",
       "CFPB Complaint", "Intent to Sue", "FCRA Attorney"] }

lemma assess_eq_claimCandidate : assessDisputeCandidate = claimCandidate := by
  funext i
  by_cases h1 : i.type = "late_payment"
  · by_cases hr : jsTruthyStr i.dispute_reason = true <;>
      simp [assessDisputeCandidate, claimCandidate, escalationPath, h1, hr]
  · by_cases h2 : i.type = "collection"
    · simp [assessDisputeCandidate, claimCandidate, escalationPath, h1, h2]
    · by_cases h3 : i.type = "chargeoff"
      · simp [assessDisputeCandidate, claimCandidate, escalationPath, h1, h2, h3]
      · by_cases h4 : i.type = "inquiry" <;>
          simp [assessDisputeCandidate, claimCandidate, escalationPath, h1, h2, h3, h4]

/-- The claim C3 as stated is false: for a late payment whose
`dispute_reason` is present but empty, the JS truthiness test takes the
reasonless branch (probability 0.35, goodwill letter) although the reason
is present. -/
def emptyReasonItem : NegativeItem :=
  { type := "late_payment", creditor_name := "Capital One", dispute_reason := some "" }

/-- The profile refuting C3. -/
def emptyReasonProfile : CreditProfile :=
  { name := "c3", negative_items := some [emptyReasonItem] }

theorem claim_C3_counterexample :
    emptyReasonItem.dispute_reason.isSome = true ∧
    (runAudit emptyReasonProfile).disputable_items.map
        (fun c => (c.success_probability, c.recommended_letter_type)) =
      [((0.35 : ℚ), "goodwill")] :=
  ⟨rfl, rfl⟩

/-- C3 amended: `disputable_items` is exactly the `disputable !== false`
negative items wrapped by the dispatch table (late-payment branch keyed on
a present-and-non-empty reason), sorted descending by priority score with
ties keeping encounter order. -/
theorem claim_C3_amended_dispute_ranking (p : CreditProfile) :
    ((runAudit p).disputable_items).Perm
      (((p.negative_items.getD []).filter
          (fun i => decide (i.disputable ≠ some false))).map claimCandidate) ∧
    ((runAudit p).disputable_items).Pairwise
      (fun a b => b.priority_score ≤ a.priority_score) ∧
    (∀ a b, a.priority_score = b.priority_score →
      List.Sublist [a, b]
        (((p.negative_items.getD []).filter
          (fun i => decide (i.disputable ≠ some false))).map claimCandidate) →
      List.Sublist [a, b] (runAudit p).disputable_items) := by
  rw [runAudit_disputable_items]
  unfold disputableItems
  rw [assess_eq_claimCandidate]
  refine ⟨List.perm_insertionSort candGE _, List.sorted_insertionSort candGE _, ?_⟩
  intro a b hpr hsub
  exact List.pair_sublist_insertionSort (le_of_eq hpr.symm) hsub

/-- Two equal-priority collection items used to witness C3 stability. -/
def collectionItemA : NegativeItem := { type := "collection", creditor_name := "Midland" }

def collectionItemB : NegativeItem := { type := "collection", creditor_name := "Portfolio" }

/-- The profile used to witness C3. -/
def twoCollectionsProfile : CreditProfile :=
  { name := "w3", negative_items := some [collectionItemA, collectionItemB] }

/-- Witness for C3: with two equal-priority collections, encounter order is
kept in the ranked list. -/
theorem claim_C3_witness :
    List.Sublist [claimCandidate collectionItemA, claimCandidate collectionItemB]
      (runAudit twoCollectionsProfile).disputable_items :=
  (claim_C3_amended_dispute_ranking twoCollectionsProfile).2.2
    (claimCandidate collectionItemA) (claimCandidate collectionItemB)
    rfl (List.Sublist.refl _)

-- -- C8: creditor-name normalization -----------------------------------------

/-- The single dash a leading junk run of the input contributes to the
collapsed string. -/
def leadDash : List Char → List Char
  | [] => []
  | c :: _ => if isAlnum c then [] else ['-']

lemma collapseRuns_nil : collapseRuns [] = [] := by
  simp [collapseRuns]

lemma collapseRuns_cons (c : Char) (rest : List Char) :
    collapseRuns (c :: rest) =
      if isAlnum c then
        (c :: rest.takeWhile isAlnum) ++ collapseRuns (rest.dropWhile isAlnum)
      else
        '-' :: collapseRuns (rest.dropWhile (fun x => !isAlnum x)) := by
  rw [collapseRuns]

lemma alnumTokens_nil : alnumTokens [] = [] := by
  simp [alnumTokens]

lemma alnumTokens_cons (c : Char) (rest : List Char) :
    alnumTokens (c :: rest) =
      if isAlnum c then
        (c :: rest.takeWhile isAlnum) :: alnumTokens (rest.dropWhile isAlnum)
      else
        alnumTokens (rest.dropWhile (fun x => !isAlnum x)) := by
  rw [alnumTokens]

lemma dropWhile_head_false {α : Type} (p : α → Bool) :
    ∀ (l : List α) (c : α) (cs : List α), l.dropWhile p = c :: cs → p c = false := by
  intro l
  induction l with
  | nil => intro c cs h; simp at h
  | cons a t ih =>
    intro c cs h
    rw [List.dropWhile_cons] at h
    by_cases hp : p a = true
    · rw [if_pos hp] at h; exact ih c cs h
    · rw [if_neg hp] at h
      cases h
      simpa using hp

lemma collapseRuns_ne_nil (l : List Char) (h : l ≠ []) : collapseRuns l ≠ [] := by
  cases l with
  | nil => exact absurd rfl h
  | cons c rest =>
    rw [collapseRuns_cons]
    split_ifs <;> simp

lemma stripTrailDash_nil : stripTrailDash [] = [] := rfl

lemma stripTrailDash_append (t x : List Char) (hx : x ≠ []) :
    stripTrailDash (t ++ x) = t ++ stripTrailDash x := by
  unfold stripTrailDash
  rw [List.reverse_append]
  cases hrev : x.reverse with
  | nil => exact absurd (List.reverse_eq_nil_iff.mp hrev) hx
  | cons c cs =>
    by_cases hc : c = '-'
    · simp [stripLeadDash, hc, List.reverse_append]
    · simp [stripLeadDash, hc, List.reverse_append, List.append_assoc]

lemma stripTrailDash_all_alnum (t : List Char) (h : ∀ x ∈ t, isAlnum x = true) :
    stripTrailDash t = t := by
  unfold stripTrailDash
  cases hrev : t.reverse with
  | nil =>
    rw [List.reverse_eq_nil_iff.mp hrev]
    rfl
  | cons c cs =>
    have hc : c ∈ t := by
      have hmem : c ∈ t.reverse := by rw [hrev]; exact List.mem_cons_self _ _
      simpa using hmem
    have hca := h c hc
    have hne : ¬ (c = '-') := by
      intro e; rw [e] at hca; exact absurd hca (by decide)
    simp only [stripLeadDash, if_neg hne]
    rw [← hrev, List.reverse_reverse]

lemma joinDash_cons (t : List Char) (ts : List (List Char)) (h : ts ≠ []) :
    joinDash (t :: ts) = t ++ '-' :: joinDash ts := by
  cases ts with
  | nil => exact absurd rfl h
  | cons a l => rfl

lemma alnumTokens_first_alnum :
    ∀ (l : List Char) (t : List Char) (ts : List (List Char)), alnumTokens l = t :: ts →
      ∃ c cs, t = c :: cs ∧ isAlnum c = true := by
  suffices H : ∀ (n : ℕ) (l : List Char), l.length = n →
      ∀ (t : List Char) (ts : List (List Char)), alnumTokens l = t :: ts →
        ∃ c cs, t = c :: cs ∧ isAlnum c = true by
    intro l; exact H l.length l rfl
  intro n
  induction n using Nat.strong_induction_on with
  | _ n ih =>
    intro l hn t ts h
    cases l with
    | nil => rw [alnumTokens_nil] at h; exact absurd h (by simp)
    | cons c rest =>
      rw [alnumTokens_cons] at h
      by_cases hc : isAlnum c = true
      · rw [if_pos hc] at h
        injection h with h1 _
        exact ⟨c, rest.takeWhile isAlnum, h1.symm, hc⟩
      · rw [if_neg hc] at h
        have hlen : (rest.dropWhile (fun x => !isAlnum x)).length < n := by
          rw [← hn]
          exact Nat.lt_succ_of_le (List.dropWhile_sublist _).length_le
        exact ih _ hlen _ rfl t ts h

lemma stripTrail_collapse :
    ∀ (l : List Char),
      stripTrailDash (collapseRuns l) =
        if alnumTokens l = [] then [] else leadDash l ++ joinDash (alnumTokens l) := by
  suffices H : ∀ (n : ℕ) (l : List Char), l.length = n →
      stripTrailDash (collapseRuns l) =
        if alnumTokens l = [] then [] else leadDash l ++ joinDash (alnumTokens l) by
    intro l; exact H l.length l rfl
  intro n
  induction n using Nat.strong_induction_on with
  | _ n ih =>
    intro l hn
    cases l with
    | nil => simp [collapseRuns_nil, stripTrailDash_nil, alnumTokens_nil]
    | cons c rest =>
      by_cases hc : isAlnum c = true
      · rw [collapseRuns_cons, if_pos hc, alnumTokens_cons, if_pos hc]
        rw [if_neg (by simp)]
        have hld : leadDash (c :: rest) = [] := by simp [leadDash, hc]
        rw [hld, List.nil_append]
        by_cases hrn : rest.dropWhile isAlnum = []
        · rw [hrn, collapseRuns_nil, List.append_nil, alnumTokens_nil]
          have halnum : ∀ x ∈ c :: rest.takeWhile isAlnum, isAlnum x = true := by
            intro x hx
            rcases List.mem_cons.mp hx with rfl | hx'
            · exact hc
            · exact List.mem_takeWhile_imp hx'
          rw [stripTrailDash_all_alnum _ halnum]
          rfl
        · have hcoll := collapseRuns_ne_nil _ hrn
          have hlen : (rest.dropWhile isAlnum).length < n := by
            rw [← hn]
            exact Nat.lt_succ_of_le (List.dropWhile_sublist _).length_le
          rw [stripTrailDash_append _ _ hcoll, ih _ hlen _ rfl]
          by_cases htok : alnumTokens (rest.dropWhile isAlnum) = []
          · rw [if_pos htok, htok, List.append_nil]
            rfl
          · rw [if_neg htok]
            have hldr : leadDash (rest.dropWhile isAlnum) = ['-'] := by
              cases hrr : rest.dropWhile isAlnum with
              | nil => exact absurd hrr hrn
              | cons d ds =>
                have hd := dropWhile_head_false isAlnum rest d ds hrr
                simp [leadDash, hd]
            rw [hldr, joinDash_cons _ _ htok]
            rfl
      · rw [collapseRuns_cons, if_neg hc, alnumTokens_cons, if_neg hc]
        have hld : leadDash (c :: rest) = ['-'] := by simp [leadDash, hc]
        by_cases hrn : rest.dropWhile (fun x => !isAlnum x) = []
        · rw [hrn, collapseRuns_nil, alnumTokens_nil]
          rfl
        · obtain ⟨d, ds, hrr, hd⟩ :
              ∃ d ds, rest.dropWhile (fun x => !isAlnum x) = d :: ds ∧ isAlnum d = true := by
            cases hrr : rest.dropWhile (fun x => !isAlnum x) with
            | nil => exact absurd hrr hrn
            | cons d ds =>
              have hd := dropWhile_head_false (fun x => !isAlnum x) rest d ds hrr
              exact ⟨d, ds, rfl, by simpa using hd⟩
          have htokne : alnumTokens (rest.dropWhile (fun x => !isAlnum x)) ≠ [] := by
            rw [hrr, alnumTokens_cons, if_pos hd]; simp
          have hcoll := collapseRuns_ne_nil _ hrn
          have hstep : stripTrailDash ('-' :: collapseRuns (rest.dropWhile (fun x => !isAlnum x))) =
              '-' :: stripTrailDash (collapseRuns (rest.dropWhile (fun x => !isAlnum x))) := by
            simpa using stripTrailDash_append ['-'] _ hcoll
          have hlen : (rest.dropWhile (fun x => !isAlnum x)).length < n := by
            rw [← hn]
            exact Nat.lt_succ_of_le (List.dropWhile_sublist _).length_le
          rw [hstep, ih _ hlen _ rfl, if_neg htokne, if_neg htokne, hld]
          have hldr : leadDash (rest.dropWhile (fun x => !isAlnum x)) = [] := by
            rw [hrr]; simp [leadDash, hd]
          rw [hldr, List.nil_append]
          rfl

lemma stripAll_collapse (l : List Char) :
    stripLeadDash (stripTrailDash (collapseRuns l)) = joinDash (alnumTokens l) := by
  rw [stripTrail_collapse l]
  by_cases h : alnumTokens l = []
  · rw [if_pos h, h]; rfl
  · rw [if_neg h]
    obtain ⟨t, ts, htokeq⟩ : ∃ t ts, alnumTokens l = t :: ts := by
      cases htok : alnumTokens l with
      | nil => exact absurd htok h
      | cons t ts => exact ⟨t, ts, rfl⟩
    obtain ⟨c, cs, ht, hca⟩ := alnumTokens_first_alnum l t ts htokeq
    obtain ⟨tail, htail⟩ : ∃ tail, joinDash (alnumTokens l) = c :: tail := by
      rw [htokeq, ht]
      cases ts with
      | nil => exact ⟨cs, rfl⟩
      | cons a b => exact ⟨cs ++ '-' :: joinDash (a :: b), rfl⟩
    have hcne : ¬ (c = '-') := by
      intro e; rw [e] at hca; exact absurd hca (by decide)
    cases l with
    | nil => rw [alnumTokens_nil] at h; exact absurd rfl h
    | cons x xs =>
      by_cases hx : isAlnum x = true
      · simp only [leadDash, if_pos hx, List.nil_append]
        rw [htail]
        simp [stripLeadDash, hcne]
      · simp only [leadDash, if_neg hx]
        rw [htail]
        simp [stripLeadDash]

/-- C8: normalization is invariant across case and punctuation variants —
any two strings reducing to the same alphanumeric token sequence normalize
identically; the empty string normalizes to the empty string; and the
normal form is exactly the token sequence joined by single separators
(maximal non-alphanumeric runs collapsed, leading/trailing separators
stripped). -/
theorem claim_C8_normalization (a b : String) (h : nameTokens a = nameTokens b) :
    normalizeCreditorName a = normalizeCreditorName b ∧
    normalizeCreditorName "" = "" ∧
    (∀ s : String, normalizeCreditorName s = String.mk (joinDash (nameTokens s))) := by
  have hform : ∀ s : String, normalizeCreditorName s = String.mk (joinDash (nameTokens s)) :=
    fun s => congrArg String.mk (stripAll_collapse _)
  refine ⟨?_, ?_, hform⟩
  · rw [hform a, hform b, h]
  · rw [hform ""]
    have hnil : nameTokens "" = [] := by simp [nameTokens, alnumTokens]
    rw [hnil]
    rfl

/-- Witness for C8 on a concrete case/punctuation variant pair. -/
theorem claim_C8_witness :
    nameTokens "Capital One" = nameTokens "CAPITAL-ONE!" ∧
    normalizeCreditorName "Capital One" = normalizeCreditorName "CAPITAL-ONE!" := by
  have h : nameTokens "Capital One" = nameTokens "CAPITAL-ONE!" := by
    simp [nameTokens, alnumTokens, isAlnum]
  exact ⟨h, (claim_C8_normalization "Capital One" "CAPITAL-ONE!" h).1⟩

-- -- C4: recommendation generation -------------------------------------------

set_option maxHeartbeats 2000000 in
/-- C4: the generated action list contains exactly the claimed actions under
exactly the claimed conditions with the claimed priorities, impacts and
costs, sorted ascending by priority with equal-priority entries kept in
generation order. -/
theorem claim_C4_recommendations (p : CreditProfile) (phase utilStatus : String)
    (missingTypes : List String) :
    (((∃ a ∈ generateRecommendations p phase utilStatus missingTypes,
        a.action = "Reduce utilization") ↔
          (utilStatus = "fair" ∨ utilStatus = "critical")) ∧
      (∀ a ∈ generateRecommendations p phase utilStatus missingTypes,
        a.action = "Reduce utilization" → a.priority = 1 ∧
          a.estimated_score_impact = (if utilStatus = "critical" then 50 else 25))) ∧
    (((∃ a ∈ generateRecommendations p phase utilStatus missingTypes,
        a.action = "Dispute negative items") ↔ p.negative_items.getD [] ≠ []) ∧
      (∀ a ∈ generateRecommendations p phase utilStatus missingTypes,
        a.action = "Dispute negative items" →
          a.priority = 2 ∧ a.estimated_score_impact = 30 ∧ a.cost = 9)) ∧
    (((∃ a ∈ generateRecommendations p phase utilStatus missingTypes,
        a.action = "Open secured credit card") ↔
          (phase = "foundation" ∧ p.total_accounts.getD 0 < 3)) ∧
      (∀ a ∈ generateRecommendations p phase utilStatus missingTypes,
        a.action = "Open secured credit card" →
          a.priority = 3 ∧ a.estimated_score_impact = 20 ∧ a.cost = 200)) ∧
    (((∃ a ∈ generateRecommendations p phase utilStatus missingTypes,
        a.action = "Open credit builder loan") ↔
          (phase = "foundation" ∧ p.total_accounts.getD 0 < 3)) ∧
      (∀ a ∈ generateRecommendations p phase utilStatus missingTypes,
        a.action = "Open credit builder loan" →
          a.priority = 4 ∧ a.estimated_score_impact = 15 ∧ a.cost = 25)) ∧
    (((∃ a ∈ generateRecommendations p phase utilStatus missingTypes,
        a.action = "Become authorized user") ↔
          (phase = "foundation" ∧ p.total_accounts.getD 0 < 3)) ∧
      (∀ a ∈ generateRecommendations p phase utilStatus missingTypes,
        a.action = "Become authorized user" →
          a.priority = 2 ∧ a.estimated_score_impact = 40 ∧ a.cost = 0)) ∧
    (((∃ a ∈ generateRecommendations p phase utilStatus missingTypes,
        a.action = "Diversify credit mix") ↔ missingTypes ≠ []) ∧
      (∀ a ∈ generateRecommendations p phase utilStatus missingTypes,
        a.action = "Diversify credit mix" →
          a.priority = 5 ∧ a.estimated_score_impact = 10 ∧ a.cost = 0)) ∧
    (((∃ a ∈ generateRecommendations p phase utilStatus missingTypes,
        a.action = "Request credit limit increases") ↔ phase ≠ "foundation") ∧
      (∀ a ∈ generateRecommendations p phase utilStatus missingTypes,
        a.action = "Request credit limit increases" →
          a.priority = 3 ∧ a.estimated_score_impact = 15 ∧ a.cost = 0)) ∧
    ((∃ a ∈ generateRecommendations p phase utilStatus missingTypes,
        a.action = "Enable Experian Boost") ∧
      (∀ a ∈ generateRecommendations p phase utilStatus missingTypes,
        a.action = "Enable Experian Boost" →
          a.priority = 4 ∧ a.estimated_score_impact = 10 ∧ a.cost = 0)) ∧
    ((generateRecommendations p phase utilStatus missingTypes).Pairwise
      (fun a b => a.priority ≤ b.priority)) ∧
    (p.negative_items.getD [] ≠ [] → phase = "foundation" →
      p.total_accounts.getD 0 < 3 →
      List.Sublist [disputeNegativesAction, authorizedUserAction]
        (generateRecommendations p phase utilStatus missingTypes)) ∧
    (phase = "foundation" → p.total_accounts.getD 0 < 3 →
      List.Sublist [builderLoanAction, experianBoostAction]
        (generateRecommendations p phase utilStatus missingTypes)) := by
  have hpair : (generateRecommendations p phase utilStatus missingTypes).Pairwise
      (fun a b => a.priority ≤ b.priority) :=
    List.sorted_insertionSort recLE _
  refine ⟨⟨?_, ?_⟩, ⟨?_, ?_⟩, ⟨?_, ?_⟩, ⟨?_, ?_⟩, ⟨?_, ?_⟩, ⟨?_, ?_⟩, ⟨?_, ?_⟩,
    ⟨?_, ?_⟩, hpair, ?_, ?_⟩ <;>
  · by_cases hc : utilStatus = "critical" <;>
      by_cases hf : utilStatus = "fair" <;>
        (try (rw [hc] at hf; exact absurd hf (by decide))) <;>
        by_cases hn : p.negative_items.getD [] = [] <;>
          by_cases hp2 : phase = "foundation" <;>
            by_cases ha2 : p.total_accounts.getD 0 < 3 <;>
              by_cases hm : missingTypes = [] <;>
                simp [generateRecommendations, recommendationsBase, List.length_pos,
                  hc, hf, hn, hp2, ha2, hm] <;>
                  decide

/-- The profile used to witness C4. -/
def c4Profile : CreditProfile :=
  { name := "w4"
    negative_items := some [{ type := "collection", creditor_name := "Midland" }]
    total_accounts := some 2 }

/-- Witness for C4: with negative items present in foundation phase with
fewer than three accounts, the two priority-2 actions appear in generation
order. -/
theorem claim_C4_witness :
    List.Sublist [disputeNegativesAction, authorizedUserAction]
      (generateRecommendations c4Profile "foundation" "good" []) :=
  (claim_C4_recommendations c4Profile "foundation" "good" []).2.2.2.2.2.2.2.2.2.1
    (by decide) rfl (by decide)
